import Mathlib

/-!
Verification of the streamserver surveillance pipeline.

Shallow embedding of the Python sources:
* `motion_detector.py` — `MotionDetector.detect_motion` (contour filtering stage);
  the OpenCV background-subtraction / morphology / contour-extraction pipeline is
  abstracted as a function `bgApply` from the background-model state and the frame
  to the updated model state together with the list of extracted contours.
* `video_recorder.py` — `CircularVideoBuffer` and `VideoRecorder`
  (`start_recording`, `add_frame`, `stop_recording`); the filesystem and the
  SQLite event store (`database.py`, `EventDatabase.add_event`) are modelled by an
  environment record carrying the `os.path.exists` result, the file size and the
  wall-clock date.
* `streamserver.py` — `RTSPSession.send_h264_data`, `_create_rtp_packet`,
  `H264StreamOutput` client distribution and `RTSPHandler._handle_teardown`.

Frames, payload bytes and timestamps are modelled as natural numbers.
-/

/-! ## Motion detector (`motion_detector.py`) -/

/-- A contour as produced by `cv2.findContours`: its `cv2.contourArea` value and
its `cv2.boundingRect` rectangle `(x, y, w, h)`. -/
structure Contour where
  area : Nat
  rect : Nat × Nat × Nat × Nat
deriving DecidableEq, Repr

/-- Mutable state of `MotionDetector`: the background-subtractor model
(abstracted to a `Nat`) and `last_motion_time`. -/
structure MotionState where
  bgModel : Nat
  lastMotionTime : Nat
deriving DecidableEq, Repr

/-- The contour loop of `MotionDetector.detect_motion` (lines 59-67): starting
from `motion_detected = False`, `motion_boxes = []`, for each contour whose area
is strictly greater than `min_area` set the flag and append its bounding
rectangle. -/
def detectContours (minArea : Nat) (contours : List Contour) :
    Bool × List (Nat × Nat × Nat × Nat) :=
  contours.foldl
    (fun acc c => if minArea < c.area then (true, acc.2 ++ [c.rect]) else acc)
    (false, [])

/-- `MotionDetector.detect_motion`.  A `none` frame returns `(False, [])` without
touching the state (lines 43-44).  For a real frame, `bgApply` stands for
`bg_subtractor.apply` + morphology + `findContours`: it consumes the current
background model and the frame and yields the updated model and the contour
list; then the contour loop runs and, if motion was detected,
`last_motion_time` is set to `now` (lines 69-70). -/
def MotionDetector.detect_motion (minArea : Nat)
    (bgApply : Nat → Nat → Nat × List Contour) (now : Nat)
    (s : MotionState) (frame : Option Nat) :
    (Bool × List (Nat × Nat × Nat × Nat)) × MotionState :=
  match frame with
  | none => ((false, []), s)
  | some f =>
      let r := bgApply s.bgModel f
      let d := detectContours minArea r.2
      (d, { bgModel := r.1,
            lastMotionTime := if d.1 then now else s.lastMotionTime })

/-! ## Circular pre-roll buffer (`CircularVideoBuffer`) -/

/-- The last `n` elements of a list (a `collections.deque` with `maxlen = n`
keeps exactly the last `n` appended elements). -/
def lastN (n : Nat) (l : List α) : List α := l.drop (l.length - n)

/-- `CircularVideoBuffer.add_frame`: a `None` frame is ignored; otherwise the
`(frame, timestamp)` pair is appended and the deque retains the most recent
`max_frames` entries. -/
def CircularVideoBuffer.add_frame (maxFrames : Nat) (buf : List (Nat × Nat))
    (frame : Option Nat) (t : Nat) : List (Nat × Nat) :=
  match frame with
  | none => buf
  | some f => lastN maxFrames (buf ++ [(f, t)])

/-- Iterate `CircularVideoBuffer.add_frame` over a sequence of
`(frame, timestamp)` calls. -/
def CircularVideoBuffer.runAdds (maxFrames : Nat) (buf : List (Nat × Nat)) :
    List (Option Nat × Nat) → List (Nat × Nat)
  | [] => buf
  | a :: rest =>
      CircularVideoBuffer.runAdds maxFrames
        (CircularVideoBuffer.add_frame maxFrames buf a.1 a.2) rest

/-- `CircularVideoBuffer.get_prebuffer_frames` returns a list copy of the
buffer contents. -/
def CircularVideoBuffer.get_prebuffer_frames (buf : List (Nat × Nat)) :
    List (Nat × Nat) := buf

/-- The subsequence of a call sequence that actually lands in the buffer: the
non-`None` frames paired with their timestamps, in arrival order. -/
def bufFiltered (adds : List (Option Nat × Nat)) : List (Nat × Nat) :=
  adds.filterMap (fun p => p.1.map (fun f => (f, p.2)))

example :
    CircularVideoBuffer.runAdds 2 []
      [(some 1, 10), (none, 11), (some 2, 12), (some 3, 13)]
      = [(2, 12), (3, 13)] := by decide

example :
    MotionDetector.detect_motion 5 (fun b _ => (b + 1, [⟨5, (1, 2, 3, 4)⟩])) 9
      ⟨0, 0⟩ (some 7) = ((false, []), ⟨1, 0⟩) := by decide

/-! ## Video recorder (`VideoRecorder`) -/

/-- A `cv2.VideoWriter`: whether `isOpened()` holds, and the frames written so
far. -/
structure VideoWriter where
  opened : Bool
  written : List Nat
deriving DecidableEq, Repr

/-- The mutable recording state of `VideoRecorder` (lines 80-84). -/
structure RecState where
  is_recording : Bool
  current_writer : Option VideoWriter
  current_filename : Option String
  recording_start_time : Option Nat
  post_motion_frames : Nat
deriving DecidableEq, Repr

/-- Initial recorder state as set by `VideoRecorder.__init__`. -/
def recInit : RecState :=
  { is_recording := false, current_writer := none, current_filename := none,
    recording_start_time := none, post_motion_frames := 0 }

/-- A durable event row as inserted by `EventDatabase.add_event`
(`database.py` lines 46-79): epoch time, calendar parts, file size and path. -/
structure Event where
  epoch : Nat
  month : Nat
  day : Nat
  year : Nat
  size : Nat
  path : String
deriving DecidableEq, Repr

/-- The part of the outside world the recorder consults: the
`os.path.exists` answer for the current output file, its `os.path.getsize`,
and `datetime.now()` broken into epoch and calendar parts. -/
structure RecEnv where
  fileExists : Bool
  size : Nat
  epoch : Nat
  month : Nat
  day : Nat
  year : Nat
deriving DecidableEq, Repr

/-- `EventDatabase.add_event`: if the file does not exist, log and return
`False`; otherwise insert the event row and return `True`. -/
def EventDatabase.add_event (db : List Event) (path : String) (env : RecEnv) :
    Bool × List Event :=
  if env.fileExists then
    (true, db ++ [{ epoch := env.epoch, month := env.month, day := env.day,
                    year := env.year, size := env.size, path := path }])
  else (false, db)

/-- `VideoRecorder.start_recording` (lines 94-137).  `openOk` is the
`VideoWriter.isOpened()` outcome for the freshly constructed writer.  If
already recording, return `False` and change nothing.  Otherwise set
`current_filename` and construct the writer; if it failed to open, return
`False` *leaving the unopened writer assigned* (the code has no cleanup on
this path); if it opened, write the non-`None` prebuffer frames in order and
enter the recording state. -/
def VideoRecorder.start_recording (s : RecState) (fn : String) (openOk : Bool)
    (prebuffer : List (Option Nat × Nat)) (now : Nat) : Bool × RecState :=
  if s.is_recording then (false, s)
  else
    let s1 : RecState :=
      { s with current_filename := some fn,
               current_writer := some { opened := openOk, written := [] } }
    if openOk then
      (true,
       { s1 with
           current_writer :=
             some { opened := true,
                    written := prebuffer.filterMap (fun p => p.1) },
           is_recording := true, recording_start_time := some now,
           post_motion_frames := 0 })
    else (false, s1)

/-- `VideoRecorder.stop_recording` (lines 168-200): if not recording return
`False`; otherwise release the writer (`_cleanup_recording`), and if
`current_filename` is truthy and the file exists on disk, call
`EventDatabase.add_event`; finally reset all recording state. -/
def VideoRecorder.stop_recording (s : RecState) (db : List Event)
    (env : RecEnv) : Bool × RecState × List Event :=
  if s.is_recording then
    let s1 : RecState := { s with current_writer := none }
    let db2 :=
      match s1.current_filename with
      | some fn =>
          if (fn != "") && env.fileExists then
            (EventDatabase.add_event db fn env).2
          else db
      | none => db
    (true,
     { s1 with is_recording := false, current_filename := none,
               recording_start_time := none, post_motion_frames := 0 },
     db2)
  else (false, s, db)

/-- `VideoRecorder.add_frame` (lines 139-166): if not recording or no writer,
return `False`.  Otherwise a non-`None` frame is written to the sink and
`post_motion_frames` is incremented — unconditionally, there is no motion
input.  Then, if the counter has reached
`max_post_frames = post_motion_duration * fps`, `stop_recording` runs and the
call returns `False`; otherwise it returns `True`. -/
def VideoRecorder.add_frame (fps postMotionDuration : Nat) (s : RecState)
    (db : List Event) (frame : Option Nat) (env : RecEnv) :
    Bool × RecState × List Event :=
  if !s.is_recording || s.current_writer.isNone then (false, s, db)
  else
    let s1 : RecState :=
      match frame with
      | some f =>
          { s with
              current_writer :=
                s.current_writer.map
                  (fun w => { w with written := w.written ++ [f] }),
              post_motion_frames := s.post_motion_frames + 1 }
      | none => s
    if postMotionDuration * fps ≤ s1.post_motion_frames then
      let r := VideoRecorder.stop_recording s1 db env
      (false, r.2.1, r.2.2)
    else (true, s1, db)

/-- Feed a sequence of frames to `VideoRecorder.add_frame`, threading the
recorder state and the event store. -/
def VideoRecorder.runFrames (fps postMotionDuration : Nat) (s : RecState)
    (db : List Event) (frames : List (Option Nat)) (env : RecEnv) :
    RecState × List Event :=
  match frames with
  | [] => (s, db)
  | f :: rest =>
      let r := VideoRecorder.add_frame fps postMotionDuration s db f env
      VideoRecorder.runFrames fps postMotionDuration r.2.1 r.2.2 rest env

example :
    (VideoRecorder.start_recording recInit "motion_x.mp4" true
      [(some 1, 0), (none, 1), (some 2, 2)] 5)
      = (true,
         { is_recording := true,
           current_writer := some { opened := true, written := [1, 2] },
           current_filename := some "motion_x.mp4",
           recording_start_time := some 5, post_motion_frames := 0 }) := by
  decide

/-! ## RTSP session and RTP packetizer (`streamserver.py`) -/

/-- An RTP packet as assembled by `RTSPSession._create_rtp_packet`
(lines 299-318): fixed header fields, the session's current sequence number,
timestamp and SSRC, followed by the payload. -/
structure RTPPacket where
  version : Nat
  marker : Nat
  payloadType : Nat
  seq : Nat
  timestamp : Nat
  ssrc : Nat
  payload : List Nat
deriving DecidableEq, Repr

/-- `RTSPSession` state (lines 270-282).  `hasRtpSocket` models
`rtp_socket is not None`. -/
structure RTSPSession where
  sessionId : Nat
  rtpPort : Option Nat
  rtcpPort : Option Nat
  hasRtpSocket : Bool
  sequenceNumber : Nat
  timestamp : Nat
  ssrc : Nat
  isPlaying : Bool
deriving DecidableEq, Repr

/-- A datagram handed to `rtp_socket.sendto`: which session sent it, the
destination (client address's negotiated RTP port) and the packet. -/
structure Datagram where
  sid : Nat
  port : Option Nat
  packet : RTPPacket
deriving DecidableEq, Repr

/-- `RTSPSession._create_rtp_packet`: version 2, marker 1, payload type 96,
current sequence number, timestamp and SSRC. -/
def RTSPSession.create_rtp_packet (s : RTSPSession) (payload : List Nat) :
    RTPPacket :=
  { version := 2, marker := 1, payloadType := 96, seq := s.sequenceNumber,
    timestamp := s.timestamp, ssrc := s.ssrc, payload := payload }

/-- `RTSPSession.send_h264_data` (lines 284-297): a no-op unless the session
is playing and has an RTP socket; otherwise send one RTP packet to the
client's negotiated port, then advance the sequence number mod 65536 and the
timestamp by 3600. -/
def RTSPSession.send_h264_data (s : RTSPSession) (payload : List Nat) :
    Option Datagram × RTSPSession :=
  if !s.isPlaying || !s.hasRtpSocket then (none, s)
  else
    (some { sid := s.sessionId, port := s.rtpPort,
            packet := RTSPSession.create_rtp_packet s payload },
     { s with sequenceNumber := (s.sequenceNumber + 1) % 65536,
              timestamp := s.timestamp + 3600 })

/-- Send a sequence of payloads through one session, collecting the packets
actually sent (`H264StreamOutput` delivers one `send_h264_data` call per
published NAL unit). -/
def RTSPSession.sendMany (s : RTSPSession) :
    List (List Nat) → RTSPSession × List RTPPacket
  | [] => (s, [])
  | p :: rest =>
      let r := RTSPSession.send_h264_data s p
      let q := RTSPSession.sendMany r.2 rest
      (q.1, (r.1.map Datagram.packet).toList ++ q.2)

/-- `H264StreamOutput._handle_nal_unit` distribution loop (lines 134-149):
send the unit to every client in the list; each client's session state is
updated by its own send. -/
def H264StreamOutput.publish (clients : List RTSPSession) (nal : List Nat) :
    List RTSPSession × List Datagram :=
  (clients.map (fun c => (RTSPSession.send_h264_data c nal).2),
   clients.filterMap (fun c => (RTSPSession.send_h264_data c nal).1))

/-- Publish a sequence of NAL units through the distribution loop. -/
def H264StreamOutput.publishAll (clients : List RTSPSession) :
    List (List Nat) → List RTSPSession × List Datagram
  | [] => (clients, [])
  | p :: rest =>
      let r := H264StreamOutput.publish clients p
      let q := H264StreamOutput.publishAll r.1 rest
      (q.1, r.2 ++ q.2)

/-- `RTSPHandler._handle_teardown` (lines 498-511) acting on the hub: the
session object has `is_playing` set to `False` (object identity: every list
entry with this session id is that object) and `remove_client` removes it
from the client list. -/
def RTSPHandler.handle_teardown (clients : List RTSPSession) (sid : Nat) :
    List RTSPSession :=
  (clients.map
    (fun c => if c.sessionId = sid then { c with isPlaying := false } else c)
  ).eraseP (fun c => c.sessionId == sid)

example :
    (RTSPSession.sendMany
      { sessionId := 1, rtpPort := some 5004, rtcpPort := some 5005,
        hasRtpSocket := true, sequenceNumber := 65535, timestamp := 0,
        ssrc := 7, isPlaying := true } [[1], [2]]).2.map RTPPacket.seq
      = [65535, 0] := by decide

/-! ## Lemmas about `lastN` (deque with `maxlen`) -/

lemma lastN_length_le (n : Nat) (l : List α) : (lastN n l).length ≤ n := by
  simp only [lastN, List.length_drop]
  omega

lemma lastN_zero (l : List α) : lastN 0 l = [] := by
  simp [lastN]

lemma lastN_append_succ (n : Nat) (l : List α) (y : α) :
    lastN (n + 1) (l ++ [y]) = lastN n l ++ [y] := by
  unfold lastN
  have h1 : (l ++ [y]).length - (n + 1) = l.length - n := by
    simp [List.length_append]
  rw [h1, List.drop_append_of_le_length (by omega)]

lemma lastN_lastN (m n : Nat) (l : List α) (h : m ≤ n) :
    lastN m (lastN n l) = lastN m l := by
  unfold lastN
  rw [List.drop_drop, List.length_drop]
  congr 1
  omega

lemma lastN_absorb_append (n : Nat) (l : List α) (y : α) :
    lastN n (lastN n l ++ [y]) = lastN n (l ++ [y]) := by
  cases n with
  | zero => rw [lastN_zero, lastN_zero]
  | succ m =>
      rw [lastN_append_succ, lastN_append_succ, lastN_lastN m (m + 1) l (by omega)]

lemma runAdds_lastN (maxF : Nat) :
    ∀ (adds : List (Option Nat × Nat)) (l : List (Nat × Nat)),
      CircularVideoBuffer.runAdds maxF (lastN maxF l) adds
        = lastN maxF (l ++ bufFiltered adds) := by
  intro adds
  induction adds with
  | nil => intro l; simp [CircularVideoBuffer.runAdds, bufFiltered]
  | cons a rest ih =>
      intro l
      obtain ⟨f, t⟩ := a
      cases f with
      | none =>
          simpa [CircularVideoBuffer.runAdds, CircularVideoBuffer.add_frame,
                 bufFiltered] using ih l
      | some x =>
          have hstep :
              CircularVideoBuffer.add_frame maxF (lastN maxF l) (some x) t
                = lastN maxF (l ++ [(x, t)]) := by
            simp [CircularVideoBuffer.add_frame, lastN_absorb_append]
          have := ih (l ++ [(x, t)])
          simp only [CircularVideoBuffer.runAdds, hstep, bufFiltered,
                     List.filterMap_cons, Option.map_some] at this ⊢
          rw [this, List.append_assoc]
          rfl

/-- C3: for every sequence of `add_frame` calls on `CircularVideoBuffer`, the
snapshot returned by `get_prebuffer_frames` has length at most
`pre_buffer_duration × fps` (the capacity fixed at construction) and equals
exactly the most recent capacity-many added (non-`None`) frames in arrival
order, oldest first. -/
theorem circular_buffer_capacity_fifo (preBufferDuration fps : Nat)
    (adds : List (Option Nat × Nat)) :
    (CircularVideoBuffer.get_prebuffer_frames
        (CircularVideoBuffer.runAdds (preBufferDuration * fps) [] adds)).length
      ≤ preBufferDuration * fps ∧
    CircularVideoBuffer.get_prebuffer_frames
        (CircularVideoBuffer.runAdds (preBufferDuration * fps) [] adds)
      = lastN (preBufferDuration * fps) (bufFiltered adds) := by
  have h0 : lastN (preBufferDuration * fps) ([] : List (Nat × Nat)) = [] := by
    simp [lastN]
  have h := runAdds_lastN (preBufferDuration * fps) adds []
  rw [h0] at h
  simp only [List.nil_append] at h
  exact ⟨by rw [CircularVideoBuffer.get_prebuffer_frames, h];
            exact lastN_length_le _ _,
         by rw [CircularVideoBuffer.get_prebuffer_frames, h]⟩

/-! ## Recorder lifecycle theorems -/

/-- C4: calling `VideoRecorder.start_recording` while a recording is already
active returns `False` and leaves the recorder state — and hence the existing
session (writer, filename, flag) — completely unchanged, so at most one
recording session is active per recorder instance. -/
theorem start_recording_already_active (s : RecState) (fn : String)
    (openOk : Bool) (prebuffer : List (Option Nat × Nat)) (now : Nat)
    (h : s.is_recording = true) :
    VideoRecorder.start_recording s fn openOk prebuffer now = (false, s) := by
  simp [VideoRecorder.start_recording, h]

/-- A concrete already-recording state used to witness `C4`. -/
def recActive : RecState :=
  { is_recording := true,
    current_writer := some { opened := true, written := [4] },
    current_filename := some "motion_20250101_120000.mp4",
    recording_start_time := some 17, post_motion_frames := 2 }

theorem start_recording_already_active_witness :
    VideoRecorder.start_recording recActive "motion_20250101_120500.mp4" true
      [(some 9, 0)] 99 = (false, recActive) :=
  start_recording_already_active recActive "motion_20250101_120500.mp4" true
    [(some 9, 0)] 99 rfl

/-- C2 counterexample: with an idle recorder, a sink that opens, and an
*empty* prebuffer list, `start_recording` returns `True` and enters the
recording state, while the claim demands it return `False` and stay idle;
moreover, when the sink fails to open, the unopened writer object stays
assigned to `current_writer` instead of being released. -/
theorem start_recording_empty_prebuffer_counterexample :
    (VideoRecorder.start_recording recInit "motion_20250101_000000.mp4" true
        [] 0).1 = true ∧
    (VideoRecorder.start_recording recInit "motion_20250101_000000.mp4" true
        [] 0).2.is_recording = true ∧
    (VideoRecorder.start_recording recInit "motion_20250101_000000.mp4" false
        [] 0).2.current_writer = some { opened := false, written := [] } := by
  decide

/-- C2 amended: `start_recording` returns `False` and the recorder stays idle
(`is_recording` remains `False`) when the output sink cannot be opened, but on
that failure path the freshly constructed unopened writer remains held in
`current_writer`; an empty prebuffer list is not a failure — whenever the sink
opens, recording starts and the call returns `True`. -/
theorem start_recording_failure_amended (s : RecState) (fn : String)
    (prebuffer : List (Option Nat × Nat)) (now : Nat)
    (h : s.is_recording = false) :
    VideoRecorder.start_recording s fn false prebuffer now
      = (false,
         { s with current_filename := some fn,
                  current_writer := some { opened := false, written := [] } }) ∧
    (VideoRecorder.start_recording s fn false prebuffer now).2.is_recording
      = false ∧
    (VideoRecorder.start_recording s fn true prebuffer now).1 = true := by
  refine ⟨?_, ?_, ?_⟩ <;> simp [VideoRecorder.start_recording, h]

theorem start_recording_failure_amended_witness :
    VideoRecorder.start_recording recInit "motion_20250101_000100.mp4" false
        [(some 3, 1)] 2
      = (false,
         { recInit with
             current_filename := some "motion_20250101_000100.mp4",
             current_writer := some { opened := false, written := [] } }) ∧
    (VideoRecorder.start_recording recInit "motion_20250101_000100.mp4" false
        [(some 3, 1)] 2).2.is_recording = false ∧
    (VideoRecorder.start_recording recInit "motion_20250101_000100.mp4" true
        [(some 3, 1)] 2).1 = true :=
  start_recording_failure_amended recInit "motion_20250101_000100.mp4"
    [(some 3, 1)] 2 rfl

/-- C5: when an active recording is finalized by `stop_recording`, the writer
is released first, and an event carrying the file's size and timestamp is
appended to the event store exactly when the output file exists on disk; if
the file does not exist, the event store is unchanged. -/
theorem stop_recording_event_iff_file_exists (s : RecState) (db : List Event)
    (env : RecEnv) (fn : String) (h1 : s.is_recording = true)
    (h2 : s.current_filename = some fn) (h3 : fn ≠ "") :
    (env.fileExists = true →
      (VideoRecorder.stop_recording s db env).2.2
        = db ++ [{ epoch := env.epoch, month := env.month, day := env.day,
                   year := env.year, size := env.size, path := fn }]) ∧
    (env.fileExists = false →
      (VideoRecorder.stop_recording s db env).2.2 = db) ∧
    (VideoRecorder.stop_recording s db env).2.1.current_writer = none ∧
    (VideoRecorder.stop_recording s db env).2.1.is_recording = false := by
  cases henv : env.fileExists <;>
    simp [VideoRecorder.stop_recording, EventDatabase.add_event, h1, h2, h3,
          henv]

theorem stop_recording_event_iff_file_exists_witness :
    (({ fileExists := true, size := 2048, epoch := 1700000000, month := 1,
        day := 2, year := 2025 } : RecEnv).fileExists = true →
      (VideoRecorder.stop_recording recActive []
          { fileExists := true, size := 2048, epoch := 1700000000, month := 1,
            day := 2, year := 2025 }).2.2
        = [] ++ [{ epoch := 1700000000, month := 1, day := 2, year := 2025,
                   size := 2048, path := "motion_20250101_120000.mp4" }]) ∧
    (({ fileExists := true, size := 2048, epoch := 1700000000, month := 1,
        day := 2, year := 2025 } : RecEnv).fileExists = false →
      (VideoRecorder.stop_recording recActive []
          { fileExists := true, size := 2048, epoch := 1700000000, month := 1,
            day := 2, year := 2025 }).2.2 = []) ∧
    (VideoRecorder.stop_recording recActive []
        { fileExists := true, size := 2048, epoch := 1700000000, month := 1,
          day := 2, year := 2025 }).2.1.current_writer = none ∧
    (VideoRecorder.stop_recording recActive []
        { fileExists := true, size := 2048, epoch := 1700000000, month := 1,
          day := 2, year := 2025 }).2.1.is_recording = false :=
  stop_recording_event_iff_file_exists recActive []
    { fileExists := true, size := 2048, epoch := 1700000000, month := 1,
      day := 2, year := 2025 } "motion_20250101_120000.mp4" rfl rfl
    (by decide)

/-! ## Post-roll countdown behaviour of `add_frame` -/

/-- A fixed benign environment: the output file exists on disk. -/
def envTrue : RecEnv :=
  { fileExists := true, size := 1024, epoch := 1700000001, month := 1, day := 3,
    year := 2025 }

lemma runFrames_cons (fps pmd : Nat) (s : RecState) (db : List Event)
    (f : Option Nat) (rest : List (Option Nat)) (env : RecEnv) :
    VideoRecorder.runFrames fps pmd s db (f :: rest) env
      = VideoRecorder.runFrames fps pmd
          (VideoRecorder.add_frame fps pmd s db f env).2.1
          (VideoRecorder.add_frame fps pmd s db f env).2.2 rest env := rfl

lemma add_frame_some_eq (fps pmd : Nat) (s : RecState) (db : List Event)
    (x : Nat) (env : RecEnv) (w : VideoWriter) (h1 : s.is_recording = true)
    (h2 : s.current_writer = some w) :
    VideoRecorder.add_frame fps pmd s db (some x) env
      = if pmd * fps ≤ s.post_motion_frames + 1 then
          (false,
           (VideoRecorder.stop_recording
              { s with
                  current_writer :=
                    some { opened := w.opened, written := w.written ++ [x] },
                  post_motion_frames := s.post_motion_frames + 1 } db env).2.1,
           (VideoRecorder.stop_recording
              { s with
                  current_writer :=
                    some { opened := w.opened, written := w.written ++ [x] },
                  post_motion_frames := s.post_motion_frames + 1 } db env).2.2)
        else
          (true,
           { s with
               current_writer :=
                 some { opened := w.opened, written := w.written ++ [x] },
               post_motion_frames := s.post_motion_frames + 1 },
           db) := by
  simp [VideoRecorder.add_frame, h1, h2]

lemma stop_recording_not_recording (s : RecState) (db : List Event)
    (env : RecEnv) (h1 : s.is_recording = true) :
    ((VideoRecorder.stop_recording s db env).2.1).is_recording = false := by
  simp [VideoRecorder.stop_recording, h1]

lemma runFrames_stopped (fps pmd : Nat) (db : List Event) (env : RecEnv) :
    ∀ (frames : List (Option Nat)) (s : RecState), s.is_recording = false →
      VideoRecorder.runFrames fps pmd s db frames env = (s, db) := by
  intro frames
  induction frames with
  | nil => intro s _; rfl
  | cons f rest ih =>
      intro s h
      simp [VideoRecorder.runFrames, VideoRecorder.add_frame, h, ih s h]

lemma runFrames_isRecording_iff (fps pmd : Nat) (env : RecEnv) :
    ∀ (frames : List (Option Nat)) (s : RecState) (db : List Event)
      (w : VideoWriter),
      s.is_recording = true → s.current_writer = some w →
      (∀ f ∈ frames, f.isSome) → s.post_motion_frames < pmd * fps →
      (((VideoRecorder.runFrames fps pmd s db frames env).1).is_recording = true
        ↔ s.post_motion_frames + frames.length < pmd * fps) := by
  intro frames
  induction frames with
  | nil =>
      intro s db w h1 _ _ h4
      simp [VideoRecorder.runFrames, h1, h4]
  | cons f rest ih =>
      intro s db w h1 h2 h5 h4
      obtain ⟨x, rfl⟩ := Option.isSome_iff_exists.mp (h5 f (by simp))
      rw [runFrames_cons, add_frame_some_eq fps pmd s db x env w h1 h2]
      by_cases hstop : pmd * fps ≤ s.post_motion_frames + 1
      · rw [if_pos hstop]
        have hs2 := stop_recording_not_recording
          { s with
              current_writer :=
                some { opened := w.opened, written := w.written ++ [x] },
              post_motion_frames := s.post_motion_frames + 1 } db env h1
        rw [runFrames_stopped fps pmd _ env rest _ hs2]
        simp only [hs2, Bool.false_eq_true, false_iff, List.length_cons]
        omega
      · rw [if_neg hstop]
        have hrec := ih
          { s with
              current_writer :=
                some { opened := w.opened, written := w.written ++ [x] },
              post_motion_frames := s.post_motion_frames + 1 }
          db { opened := w.opened, written := w.written ++ [x] } h1 rfl
          (fun g hg => h5 g (by simp [hg])) (by dsimp only; omega)
        rw [hrec]
        simp only [List.length_cons]
        omega

/-- C1 counterexample: with `fps = 1` and `post_motion_duration = 2`
(post-roll of 2 frames) and a recording started from one prebuffer frame,
feed two frames — the first with motion still present, the second without.
The last motion-present frame is the first one, so by the claim the recorder
may only become `Idle` exactly 2 frames after that frame ("not before"), i.e.
it must still be recording here; but the code counts every frame regardless of
motion and is already idle. -/
theorem recorder_post_roll_counterexample :
    ((VideoRecorder.runFrames 1 2
        (VideoRecorder.start_recording recInit "motion_20250101_000200.mp4"
            true [(some 0, 0)] 0).2
        [] [some 1, some 2] envTrue).1).is_recording = false := by
  decide

/-- C1 amended: while `Recording`, each `add_frame` call writes the non-`None`
frame to the sink and unconditionally increments the post-motion frame
counter — `add_frame` has no motion input and never resets the countdown — and
the recorder transitions to `Idle` exactly when the counter reaches
`post_motion_duration × fps`: fed `n` frames after starting, it is still
recording iff `n < post_motion_duration × fps`, regardless of when motion was
last present. -/
theorem recorder_post_roll_amended (fps pmd : Nat) (s : RecState)
    (w : VideoWriter) (db : List Event) (frames : List (Option Nat))
    (env : RecEnv) (x : Nat) (h1 : s.is_recording = true)
    (h2 : s.current_writer = some w) (h3 : s.post_motion_frames = 0)
    (h4 : 0 < pmd * fps) (h5 : ∀ f ∈ frames, f.isSome) :
    (((VideoRecorder.runFrames fps pmd s db frames env).1).is_recording = true
      ↔ frames.length < pmd * fps) ∧
    (1 < pmd * fps →
      ((VideoRecorder.add_frame fps pmd s db (some x) env).2.1).current_writer
        = some { opened := w.opened, written := w.written ++ [x] } ∧
      (VideoRecorder.add_frame fps pmd s db (some x) env).1 = true) := by
  constructor
  · have h := runFrames_isRecording_iff fps pmd env frames s db w h1 h2 h5
      (by omega)
    rw [h, h3, Nat.zero_add]
  · intro hgt
    rw [add_frame_some_eq fps pmd s db x env w h1 h2,
        if_neg (show ¬ pmd * fps ≤ s.post_motion_frames + 1 by omega)]
    exact ⟨rfl, rfl⟩

/-- A freshly started recording state used to witness the amended `C1`. -/
def recFresh : RecState :=
  { is_recording := true,
    current_writer := some { opened := true, written := [] },
    current_filename := some "motion_20250101_000300.mp4",
    recording_start_time := some 0, post_motion_frames := 0 }

theorem recorder_post_roll_amended_witness :
    (((VideoRecorder.runFrames 1 3 recFresh [] [some 1, some 2]
        envTrue).1).is_recording = true
      ↔ ([some 1, some 2] : List (Option Nat)).length < 3 * 1) ∧
    ((VideoRecorder.add_frame 1 3 recFresh [] (some 5) envTrue).2.1).current_writer = some { opened := true, written := [5] } := by
  have h := recorder_post_roll_amended 1 3 recFresh
    { opened := true, written := [] } [] [some 1, some 2] envTrue 5 rfl rfl rfl
    (by decide) (by decide)
  exact ⟨h.1, (h.2 (by decide)).1⟩

/-! ## Motion detection theorems -/

lemma detectContours_fold (minArea : Nat) :
    ∀ (cs : List Contour) (d : Bool) (bs : List (Nat × Nat × Nat × Nat)),
      cs.foldl
          (fun acc c =>
            if minArea < c.area then (true, acc.2 ++ [c.rect]) else acc)
          (d, bs)
        = (d || cs.any (fun c => decide (minArea < c.area)),
           bs ++ (cs.filter (fun c => decide (minArea < c.area))).map
             Contour.rect) := by
  intro cs
  induction cs with
  | nil => intro d bs; simp
  | cons c rest ih =>
      intro d bs
      by_cases h : minArea < c.area
      · simp only [List.foldl_cons, if_pos h, ih, List.any_cons, List.filter_cons,
                   decide_eq_true h, Bool.true_or, Bool.or_true, List.map_cons,
                   List.append_assoc, List.singleton_append, if_pos]
      · simp only [List.foldl_cons, if_neg h, ih, List.any_cons, List.filter_cons,
                   decide_eq_false h, Bool.false_or, List.map_cons]
        simp [h]

lemma detectContours_eq (minArea : Nat) (cs : List Contour) :
    detectContours minArea cs
      = (cs.any (fun c => decide (minArea < c.area)),
         (cs.filter (fun c => decide (minArea < c.area))).map Contour.rect) := by
  rw [detectContours, detectContours_fold]
  simp

/-- C8: a contour whose area is exactly `min_area` is excluded from the
returned boxes and does not set the motion flag, while a contour of area
`min_area + 1` is included — the qualifying comparison of
`MotionDetector.detect_motion` is strict greater-than.  (`bgUpd` is the
background-model update performed by `bg_subtractor.apply`.) -/
theorem contour_area_strict_boundary (minArea : Nat)
    (rect : Nat × Nat × Nat × Nat) (bgUpd : Nat → Nat → Nat) (now : Nat)
    (s : MotionState) (f : Nat) :
    MotionDetector.detect_motion minArea
        (fun b fr => (bgUpd b fr, [{ area := minArea, rect := rect }])) now s
        (some f)
      = ((false, []),
         { bgModel := bgUpd s.bgModel f,
           lastMotionTime := s.lastMotionTime }) ∧
    MotionDetector.detect_motion minArea
        (fun b fr => (bgUpd b fr, [{ area := minArea + 1, rect := rect }])) now
        s (some f)
      = ((true, [rect]),
         { bgModel := bgUpd s.bgModel f, lastMotionTime := now }) := by
  constructor <;>
    simp [MotionDetector.detect_motion, detectContours, Nat.lt_irrefl,
          Nat.lt_succ_self]

/-- C9: `MotionDetector.detect_motion` on a `None` frame returns
`(False, [])` and leaves the detector state (background model and
`last_motion_time`) untouched; repeating the call on `None` input is
idempotent. -/
theorem detect_motion_null_frame (minArea : Nat)
    (bgApply : Nat → Nat → Nat × List Contour) (now now2 : Nat)
    (s : MotionState) :
    MotionDetector.detect_motion minArea bgApply now s none
      = ((false, []), s) ∧
    MotionDetector.detect_motion minArea bgApply now2
        (MotionDetector.detect_motion minArea bgApply now s none).2 none
      = ((false, []), s) :=
  ⟨rfl, rfl⟩

/-- C10: for every processed frame, the motion flag returned by
`MotionDetector.detect_motion` is `True` iff the returned bounding-box list
is non-empty, and every returned box is the bounding rectangle of a contour
of the frame's foreground mask whose area strictly exceeds `min_area`. -/
theorem detect_motion_flag_iff_boxes (minArea : Nat)
    (bgApply : Nat → Nat → Nat × List Contour) (now : Nat) (s : MotionState)
    (f : Nat) :
    ((MotionDetector.detect_motion minArea bgApply now s (some f)).1.1 = true
      ↔ (MotionDetector.detect_motion minArea bgApply now s (some f)).1.2
          ≠ []) ∧
    ∀ b ∈ (MotionDetector.detect_motion minArea bgApply now s (some f)).1.2,
      ∃ c ∈ (bgApply s.bgModel f).2, minArea < c.area ∧ b = c.rect := by
  constructor
  · show (detectContours minArea (bgApply s.bgModel f).2).1 = true ↔
        (detectContours minArea (bgApply s.bgModel f).2).2 ≠ []
    rw [detectContours_eq]
    simp [List.any_eq_true, List.filter_eq_nil_iff]
  · show ∀ b ∈ (detectContours minArea (bgApply s.bgModel f).2).2, _
    rw [detectContours_eq]
    intro b hb
    simp only [List.mem_map, List.mem_filter, decide_eq_true_eq] at hb
    obtain ⟨c, ⟨hc, hlt⟩, hrect⟩ := hb
    exact ⟨c, hc, hlt, hrect.symm⟩

/-- A one-contour foreground extraction used to witness `C10`. -/
def bgApplyW : Nat → Nat → Nat × List Contour :=
  fun b _ => (b + 1, [{ area := 2, rect := (0, 0, 3, 4) }])

theorem detect_motion_flag_iff_boxes_witness :
    ((MotionDetector.detect_motion 1 bgApplyW 5 ⟨0, 0⟩ (some 0)).1.1 = true
      ↔ (MotionDetector.detect_motion 1 bgApplyW 5 ⟨0, 0⟩ (some 0)).1.2
          ≠ []) ∧
    ∃ c ∈ (bgApplyW (0 : Nat) 0).2, 1 < c.area ∧ ((0, 0, 3, 4) : Nat × Nat × Nat × Nat) = c.rect := by
  have h := detect_motion_flag_iff_boxes 1 bgApplyW 5 ⟨0, 0⟩ 0
  exact ⟨h.1, h.2 (0, 0, 3, 4) (by decide)⟩

/-! ## RTSP distribution and RTP sequencing theorems -/

lemma send_h264_preserves (c : RTSPSession) (p : List Nat) :
    ((RTSPSession.send_h264_data c p).2).sessionId = c.sessionId ∧
    ((RTSPSession.send_h264_data c p).2).isPlaying = c.isPlaying := by
  unfold RTSPSession.send_h264_data
  split <;> simp

lemma send_h264_some (c : RTSPSession) (p : List Nat) (d : Datagram)
    (h : (RTSPSession.send_h264_data c p).1 = some d) :
    c.isPlaying = true ∧ d.sid = c.sessionId := by
  unfold RTSPSession.send_h264_data at h
  split at h
  · exact absurd h (by simp)
  · rename_i hcond
    simp only [Bool.or_eq_true, Bool.not_eq_true', not_or] at hcond
    refine ⟨by simpa using hcond.1, ?_⟩
    have hd := (Option.some.inj h).symm
    rw [hd]

lemma publish_inv (clients : List RTSPSession) (sid : Nat) (p : List Nat)
    (h : ∀ c ∈ clients, c.sessionId = sid → c.isPlaying = false) :
    (∀ c ∈ (H264StreamOutput.publish clients p).1,
        c.sessionId = sid → c.isPlaying = false) ∧
    ∀ d ∈ (H264StreamOutput.publish clients p).2, d.sid ≠ sid := by
  constructor
  · intro c' hc' hid
    simp only [H264StreamOutput.publish, List.mem_map] at hc'
    obtain ⟨c, hc, rfl⟩ := hc'
    have hpres := send_h264_preserves c p
    rw [hpres.2]
    exact h c hc (by rw [← hpres.1]; exact hid)
  · intro d hd hds
    simp only [H264StreamOutput.publish, List.mem_filterMap] at hd
    obtain ⟨c, hc, hsend⟩ := hd
    have hs := send_h264_some c p d hsend
    have hnp := h c hc (by rw [← hs.2]; exact hds)
    rw [hnp] at hs
    exact absurd hs.1 (by simp)

lemma teardown_inv (clients : List RTSPSession) (sid : Nat) :
    ∀ c ∈ RTSPHandler.handle_teardown clients sid,
      c.sessionId = sid → c.isPlaying = false := by
  intro c hc hid
  rw [RTSPHandler.handle_teardown] at hc
  have hmem := List.mem_of_mem_eraseP hc
  simp only [List.mem_map] at hmem
  obtain ⟨c0, hc0, heq⟩ := hmem
  by_cases hid0 : c0.sessionId = sid
  · rw [if_pos hid0] at heq
    rw [← heq]
  · rw [if_neg hid0] at heq
    rw [← heq] at hid
    exact absurd hid hid0

lemma publishAll_no_datagram (sid : Nat) :
    ∀ (payloads : List (List Nat)) (clients : List RTSPSession),
      (∀ c ∈ clients, c.sessionId = sid → c.isPlaying = false) →
      ∀ d ∈ (H264StreamOutput.publishAll clients payloads).2, d.sid ≠ sid := by
  intro payloads
  induction payloads with
  | nil =>
      intro clients _ d hd
      simp [H264StreamOutput.publishAll] at hd
  | cons p rest ih =>
      intro clients h d hd
      simp only [H264StreamOutput.publishAll, List.mem_append] at hd
      obtain hd | hd := hd
      · exact (publish_inv clients sid p h).2 d hd
      · exact ih (H264StreamOutput.publish clients p).1
          (publish_inv clients sid p h).1 d hd

/-- C6: once a session's TEARDOWN has been handled (its `is_playing` flag
cleared and the session removed from the output's client list), no further
publish of any number of NAL units ever produces an RTP datagram for that
session's client, however many units the producer keeps publishing. -/
theorem teardown_stops_datagrams (clients : List RTSPSession) (sid : Nat)
    (payloads : List (List Nat)) :
    ∀ d ∈ (H264StreamOutput.publishAll
        (RTSPHandler.handle_teardown clients sid) payloads).2,
      d.sid ≠ sid :=
  publishAll_no_datagram sid payloads
    (RTSPHandler.handle_teardown clients sid) (teardown_inv clients sid)

/-- A playing session used in the `C6` witness: the one torn down. -/
def sessA : RTSPSession :=
  { sessionId := 1, rtpPort := some 5004, rtcpPort := some 5005,
    hasRtpSocket := true, sequenceNumber := 100, timestamp := 0, ssrc := 11,
    isPlaying := true }

/-- A second playing session used in the `C6` witness: it stays subscribed. -/
def sessB : RTSPSession :=
  { sessionId := 2, rtpPort := some 6004, rtcpPort := some 6005,
    hasRtpSocket := true, sequenceNumber := 10, timestamp := 0, ssrc := 3,
    isPlaying := true }

theorem teardown_stops_datagrams_witness :
    ({ sid := 2, port := some 6004,
       packet := { version := 2, marker := 1, payloadType := 96, seq := 10,
                   timestamp := 0, ssrc := 3, payload := [9] } } :
      Datagram).sid ≠ 1 :=
  teardown_stops_datagrams [sessA, sessB] 1 [[9]]
    { sid := 2, port := some 6004,
      packet := { version := 2, marker := 1, payloadType := 96, seq := 10,
                  timestamp := 0, ssrc := 3, payload := [9] } }
    (by decide)

lemma sendMany_seq_formula (payloads : List (List Nat)) :
    ∀ (s : RTSPSession), s.isPlaying = true → s.hasRtpSocket = true →
      s.sequenceNumber ≤ 65535 →
      ((RTSPSession.sendMany s payloads).2.length = payloads.length ∧
       ∀ i (hi : i < (RTSPSession.sendMany s payloads).2.length),
         ((RTSPSession.sendMany s payloads).2.get ⟨i, hi⟩).seq
           = (s.sequenceNumber + i) % 65536) := by
  induction payloads with
  | nil =>
      intro s _ _ _
      exact ⟨rfl, fun i hi => absurd hi (by simp [RTSPSession.sendMany])⟩
  | cons p rest ih =>
      intro s h1 h2 h3
      have hsend : RTSPSession.send_h264_data s p
          = (some { sid := s.sessionId, port := s.rtpPort,
                    packet := RTSPSession.create_rtp_packet s p },
             { s with sequenceNumber := (s.sequenceNumber + 1) % 65536,
                      timestamp := s.timestamp + 3600 }) := by
        simp [RTSPSession.send_h264_data, h1, h2]
      have hcons : (RTSPSession.sendMany s (p :: rest)).2
          = RTSPSession.create_rtp_packet s p ::
            (RTSPSession.sendMany
              { s with sequenceNumber := (s.sequenceNumber + 1) % 65536,
                       timestamp := s.timestamp + 3600 } rest).2 := by
        simp [RTSPSession.sendMany, hsend]
      have ihs := ih
        { s with sequenceNumber := (s.sequenceNumber + 1) % 65536,
                 timestamp := s.timestamp + 3600 }
        h1 h2 (by dsimp only; omega)
      constructor
      · rw [hcons]
        simp [ihs.1]
      · intro i hi
        match i with
        | 0 =>
            have : ((RTSPSession.sendMany s (p :: rest)).2.get ⟨0, hi⟩)
                = RTSPSession.create_rtp_packet s p := by
              simp [hcons]
            rw [this]
            show s.sequenceNumber = (s.sequenceNumber + 0) % 65536
            rw [Nat.add_zero, Nat.mod_eq_of_lt (by omega)]
        | j + 1 =>
            have hj : j < (RTSPSession.sendMany
                { s with sequenceNumber := (s.sequenceNumber + 1) % 65536,
                         timestamp := s.timestamp + 3600 } rest).2.length := by
              have := hi
              rw [hcons] at this
              simpa using this
            have hget : ((RTSPSession.sendMany s (p :: rest)).2.get
                  ⟨j + 1, hi⟩)
                = ((RTSPSession.sendMany
                    { s with
                        sequenceNumber := (s.sequenceNumber + 1) % 65536,
                        timestamp := s.timestamp + 3600 } rest).2.get
                    ⟨j, hj⟩) := by
              simp [hcons]
            rw [hget, ihs.2 j hj]
            dsimp only
            omega

/-- C7: for a playing session with an RTP socket and an initial sequence
number in `[0, 65535]` (as drawn by `random.randint(0, 65535)` at session
creation), the `n`-th packet sent by `send_h264_data` carries sequence number
`(initial + n) mod 65536`; hence every packet's sequence number is exactly one
greater than the previous packet's modulo 65536 (65535 wraps to 0 with no
gap), and the first packet carries the initial value itself. -/
theorem rtp_sequence_numbers (s : RTSPSession) (payloads : List (List Nat))
    (h1 : s.isPlaying = true) (h2 : s.hasRtpSocket = true)
    (h3 : s.sequenceNumber ≤ 65535) :
    (RTSPSession.sendMany s payloads).2.length = payloads.length ∧
    (∀ i (hi : i < (RTSPSession.sendMany s payloads).2.length),
      ((RTSPSession.sendMany s payloads).2.get ⟨i, hi⟩).seq
        = (s.sequenceNumber + i) % 65536) ∧
    (∀ i (hi : i + 1 < (RTSPSession.sendMany s payloads).2.length),
      ((RTSPSession.sendMany s payloads).2.get ⟨i + 1, hi⟩).seq
        = (((RTSPSession.sendMany s payloads).2.get
              ⟨i, by omega⟩).seq + 1) % 65536) ∧
    (∀ h0 : 0 < (RTSPSession.sendMany s payloads).2.length,
      ((RTSPSession.sendMany s payloads).2.get ⟨0, h0⟩).seq
        = s.sequenceNumber) := by
  obtain ⟨hlen, hseq⟩ := sendMany_seq_formula payloads s h1 h2 h3
  refine ⟨hlen, hseq, ?_, ?_⟩
  · intro i hi
    rw [hseq (i + 1) hi, hseq i (by omega)]
    omega
  · intro h0
    rw [hseq 0 h0, Nat.add_zero, Nat.mod_eq_of_lt (by omega)]

/-- A session whose initial sequence number sits at the wrap boundary, used
to witness `C7`. -/
def sessC : RTSPSession :=
  { sessionId := 3, rtpPort := some 5004, rtcpPort := some 5005,
    hasRtpSocket := true, sequenceNumber := 65535, timestamp := 0, ssrc := 42,
    isPlaying := true }

theorem rtp_sequence_numbers_witness :
    (RTSPSession.sendMany sessC [[1], [2]]).2.length = 2 ∧
    ((RTSPSession.sendMany sessC [[1], [2]]).2.get ⟨0, by decide⟩).seq
      = 65535 ∧
    ((RTSPSession.sendMany sessC [[1], [2]]).2.get ⟨1, by decide⟩).seq
      = 0 := by
  have h := rtp_sequence_numbers sessC [[1], [2]] rfl rfl (by decide)
  refine ⟨h.1, ?_, ?_⟩
  · exact h.2.2.2 (by decide)
  · exact (h.2.1 1 (by decide)).trans (by decide)
